import Mathlib

/-!
Shallow embedding of the card lifecycle core of the lost-and-found backend
(`src/backend/src/routes/cards.js` together with the in-memory card store and
its collaborator services).  The JavaScript store is a mutable array of card
objects; we model it as a `List Card` threaded explicitly through each
operation.  JavaScript `null`/absent string fields become `Option String`;
timestamps become `Nat`.  Collaborators (OCR, the RedID→email resolver, the
email notifier, `Math.random`) are passed in as explicit parameters, matching
the boundaries the code imports.
-/

/-- JavaScript truthiness for an optional string: `null`/`undefined` and the
empty string are falsy. -/
def jsTruthy : Option String → Bool
  | some s => !(s == "")
  | none => false

/-- JavaScript `a || b` on optional strings (falsy `a` yields `b`). -/
def jsOrS (a b : Option String) : Option String :=
  if jsTruthy a then a else b

/-- JavaScript `a || null` on an optional string. -/
def jsOrNone (a : Option String) : Option String :=
  if jsTruthy a then a else none

/-- JavaScript whitespace characters relevant to `trim` / `\s`. -/
def isJsWs (c : Char) : Bool :=
  c == ' ' || c == '\t' || c == '\n' || c == '\r' || c == '\x0b' || c == '\x0c'

/-- Model of `String.prototype.trim`: strip leading and trailing whitespace. -/
def jsTrim (s : String) : String :=
  String.mk (((s.toList.dropWhile isJsWs).reverse.dropWhile isJsWs).reverse)

/-- Model of `.trim().replace(/\s+/g, '')`: remove every whitespace char. -/
def stripWs (s : String) : String :=
  String.mk (s.toList.filter (fun c => !(isJsWs c)))

/-- Model of `String.prototype.toUpperCase` on the ASCII range. -/
def jsUpper (s : String) : String :=
  String.mk (s.toList.map Char.toUpper)

/-- Model of `id.substring(0, 8).toUpperCase()`: the derived reference code. -/
def refCode (id : String) : String :=
  jsUpper (String.mk (id.toList.take 8))

/-- The alphabet of pickup-code characters (`allowedDigits` in `cards.js`). -/
def allowedDigits : List Char := ['1', '2', '3', '4']

/-- Model of `generatePickupCode` from `cards.js`: `len` characters, each chosen from
`allowedDigits` by an index `Math.floor(Math.random() * 4)`, modelled by an
arbitrary index source `rand` reduced mod 4. -/
def generatePickupCode (rand : Nat → Nat) (len : Nat) : String :=
  String.mk ((List.range len).map (fun i => allowedDigits.getD (rand i % 4) '1'))

/-- A stored card record (the object built by `createCard` in the store
module).  `pickedUpAt` is absent until a pickup request stamps it. -/
structure Card where
  id : String
  redId : Option String
  fullName : Option String
  email : Option String
  source : Option String
  finderContact : Option String
  locationDescription : Option String
  boxId : Option String
  pickupCode : Option String
  status : String
  createdAt : Nat
  pickedUpAt : Option Nat
deriving Repr, DecidableEq

/-- The fields a caller passes to `createCard`.  `none` means the key is
absent (or explicitly `null`), matching the `...cardData` spread. -/
structure CardData where
  redId : Option String := none
  fullName : Option String := none
  email : Option String := none
  source : Option String := none
  finderContact : Option String := none
  locationDescription : Option String := none
  boxId : Option String := none
  pickupCode : Option String := none
  status : Option String := none
deriving Repr, DecidableEq

/-- Model of `createCard` from the store module: build the record (id supplied by the
caller as the model of `crypto.randomUUID()`, `createdAt` as the model of
`new Date()`) and push it at the end of the store array. -/
def createCard (store : List Card) (freshId : String) (now : Nat)
    (d : CardData) : Card × List Card :=
  let c : Card :=
    { id := freshId
      redId := d.redId
      fullName := d.fullName
      email := d.email
      source := d.source
      finderContact := d.finderContact
      locationDescription := d.locationDescription
      boxId := d.boxId
      pickupCode := d.pickupCode
      status := d.status.getD "waiting_for_email"
      createdAt := now
      pickedUpAt := none }
  (c, store ++ [c])

/-- A partial update passed to `updateCard` (`Object.assign` semantics): an
outer `none` means the key is absent, `some v` means the field is assigned
`v` (which may itself be `null` = inner `none`). -/
structure CardUpdates where
  redId : Option (Option String) := none
  fullName : Option (Option String) := none
  email : Option (Option String) := none
  pickupCode : Option (Option String) := none
  status : Option String := none
  pickedUpAt : Option Nat := none
deriving Repr, DecidableEq

/-- Apply an update object to one card (`Object.assign(card, updates)`). -/
def applyUpdates (u : CardUpdates) (c : Card) : Card :=
  { c with
    redId := u.redId.getD c.redId
    fullName := u.fullName.getD c.fullName
    email := u.email.getD c.email
    pickupCode := u.pickupCode.getD c.pickupCode
    status := u.status.getD c.status
    pickedUpAt :=
      match u.pickedUpAt with
      | some t => some t
      | none => c.pickedUpAt }

/-- Model of `findCardById`: first card whose id matches, else null
(`Array.prototype.find` scans front to back). -/
def findCardById : List Card → String → Option Card
  | [], _ => none
  | c :: rest, cardId =>
      if c.id = cardId then some c else findCardById rest cardId

/-- Scan for the first card whose derived reference code equals the
normalised query. -/
def findCardByRefAux : List Card → String → Option Card
  | [], _ => none
  | c :: rest, nq =>
      if refCode c.id = nq then some c else findCardByRefAux rest nq

/-- Model of `findCardByReferenceCode`: falsy query yields null, otherwise the first
card whose uppercased 8-char id prefix equals the trimmed uppercased query. -/
def findCardByReferenceCode (store : List Card) (q : String) : Option Card :=
  if q = "" then none
  else findCardByRefAux store (jsUpper (jsTrim q))

/-- Model of `findCardByPickupCode`: first card matching both the pickup code and the
box id (strict equality against possibly-null fields). -/
def findCardByPickupCode : List Card → String → String → Option Card
  | [], _, _ => none
  | c :: rest, code, box =>
      if c.pickupCode = some code ∧ c.boxId = some box then some c
      else findCardByPickupCode rest code box

/-- Model of `updateCard`: locate the first card with the given id and mutate it in
place; a missing id leaves the store unchanged (the JS version returns null). -/
def updateCard : List Card → String → CardUpdates → List Card
  | [], _, _ => []
  | c :: rest, cardId, u =>
      if c.id = cardId then applyUpdates u c :: rest
      else c :: updateCard rest cardId u

/-- Result of the `POST /pickup-request` route, abstracting the HTTP layer:
`badRequest` is the 400 on missing fields, the rest are the JSON bodies. -/
inductive PickupResult where
  | badRequest
  | invalidCode
  | alreadyPickedUp
  | ok (cardId : String)
deriving Repr, DecidableEq

/-- The `POST /pickup-request` handler: validate presence, look up by
(code, box), report `invalid_code` / `already_picked_up` as structured
outcomes, otherwise transition to `picked_up` stamping `pickedUpAt`. -/
def pickupRequest (store : List Card) (pickupCode boxId : Option String)
    (now : Nat) : PickupResult × List Card :=
  match pickupCode, boxId with
  | some code, some box =>
      if code = "" ∨ box = "" then (.badRequest, store)
      else
        match findCardByPickupCode store code box with
        | none => (.invalidCode, store)
        | some card =>
            if card.status = "picked_up" then (.alreadyPickedUp, store)
            else
              (.ok card.id,
               updateCard store card.id
                 { status := some "picked_up", pickedUpAt := some now })
  | _, _ => (.badRequest, store)

/-- The optional `{redId, fullName}` produced by a successful OCR call
(`extractInfoFromImage`).  Either field may be absent or empty. -/
structure ExtractedInfo where
  redId : Option String := none
  fullName : Option String := none
deriving Repr, DecidableEq

/-- Outcome of one `notifyOwnerOfFoundCard` call at the collaborator
boundary: it resolves `true`, resolves `false`, or throws. -/
inductive NotifyOutcome where
  | success
  | failure
  | thrown
deriving Repr, DecidableEq

/-- The `owner` object the routes build before notifying. -/
structure Owner where
  email : String
  fullName : Option String
  redId : String
deriving Repr, DecidableEq

/-- The hardcoded RedID→email table from `redIdEmailMap.js` (the duplicate
key in the object literal collapses to one entry, same value). -/
def redIdEmailMap : List (String × String) :=
  [("132264610", "ajasti7720@sdsu.edu"),
   ("132274230", "ckotsiopulos5746@sdsu.edu"),
   ("131740957", "ngaribi3916sdsu.edu")]

/-- Plain object-key lookup in the table. -/
def lookupMap (m : List (String × String)) (k : String) : Option String :=
  (m.find? (fun p => p.1 == k)).map (fun p => p.2)

/-- Model of `getEmailByRedId` from `redIdEmailMap.js`: falsy input yields null;
otherwise normalise (trim and remove all whitespace) and look up. -/
def getEmailByRedId (redId : String) : Option String :=
  if redId = "" then none
  else lookupMap redIdEmailMap (stripWs redId)

/-- OCR redId with route truthiness applied
(`extractedInfo && extractedInfo.redId ? String(extractedInfo.redId) : null`). -/
def ocrRedId : Option ExtractedInfo → Option String
  | some e => jsOrNone e.redId
  | none => none

/-- OCR fullName with route truthiness applied. -/
def ocrFullName : Option ExtractedInfo → Option String
  | some e => jsOrNone e.fullName
  | none => none

/-- Model of `redIdToUse = trimmedManualRedId || extractedRedId` in the photo
route: a (trimmed) manual identifier takes precedence when truthy. -/
def selectRedId (manualRedId : Option String) (ocr : Option ExtractedInfo) :
    Option String :=
  jsOrS (manualRedId.map jsTrim) (ocrRedId ocr)

/-- The photo route's email-lookup block: when `redIdToUse` is truthy,
normalise it and resolve through the RedID→email map; a truthy email yields
an owner object. -/
def resolveOwner (getEmail : String → Option String) (redIdToUse : Option String)
    (extractedFullName : Option String) : Option Owner :=
  match redIdToUse with
  | some r =>
      if r = "" then none
      else
        match getEmail (stripWs r) with
        | some em =>
            if em = "" then none
            else some { email := em, fullName := extractedFullName, redId := stripWs r }
        | none => none
  | none => none

/-- The photo route's notification block: when an owner with a truthy email
exists, record the address, attempt notification, and persist — on success
also transition to `email_sent`; on failure or a thrown error persist the
email and name only.  Returns `(emailSentStatus, emailAddress, store)`. -/
def notifyAndPersist (store : List Card) (cardId : String) (owner : Option Owner)
    (extractedFullName : Option String) (notify : NotifyOutcome) :
    Bool × Option String × List Card :=
  match owner with
  | some o =>
      let fn := jsOrS o.fullName (jsOrNone extractedFullName)
      match notify with
      | .success =>
          (true, some o.email,
           updateCard store cardId
             { status := some "email_sent", email := some (some o.email),
               fullName := some fn })
      | .failure =>
          (false, some o.email,
           updateCard store cardId
             { email := some (some o.email), fullName := some fn })
      | .thrown =>
          (false, some o.email,
           updateCard store cardId
             { email := some (some o.email), fullName := some fn })
  | none => (false, none, store)

/-- The JSON body of a successful `POST /found-card-photo` response. -/
structure PhotoResponse where
  cardId : String
  referenceCode : String
  message : String
  boxId : Option String
  pickupCode : Option String
  redId : Option String
  extractedInfo : Option ExtractedInfo
  emailSent : Bool
  emailAddress : Option String
deriving Repr, DecidableEq

/-- The `message` string the photo route assembles. -/
def photoMessage (ocr : Option ExtractedInfo) (redIdForMessage : Option String)
    (finalCard : Card) (referenceCode : String) : String :=
  let m0 :=
    match ocr with
    | some e =>
        if jsTruthy e.redId || jsTruthy e.fullName then
          "Thanks! We extracted information from the card."
        else "Thanks! Your report has been recorded."
    | none => "Thanks! Your report has been recorded."
  let m1 :=
    if jsTruthy redIdForMessage then
      m0 ++ " Your RedID is " ++ redIdForMessage.getD "" ++ "."
    else m0
  let m2 :=
    if jsTruthy finalCard.boxId && jsTruthy finalCard.pickupCode then
      m1 ++ " The card is stored at " ++ finalCard.boxId.getD "" ++
        ". Pickup code: " ++ finalCard.pickupCode.getD "" ++ "."
    else m1
  m2 ++ " Your reference ID is " ++ referenceCode ++ "."

/-- The `POST /found-card-photo` handler.  `none` models the 400 response
when no image file is attached; `ocr = none` models an OCR call that threw
(the route catches and continues) or returned nothing. -/
def photoIntake (store : List Card) (freshId : String) (now : Nat)
    (finderContact locationDescription boxId manualRedId : Option String)
    (imagePresent : Bool) (ocr : Option ExtractedInfo)
    (getEmail : String → Option String) (rand : Nat → Nat)
    (notify : NotifyOutcome) : Option (PhotoResponse × List Card) :=
  if !imagePresent then none
  else
    let pickupCode : Option String :=
      if jsTruthy boxId then some (generatePickupCode rand 4) else none
    let cs := createCard store freshId now
      { source := some "web"
        finderContact := jsOrNone finderContact
        locationDescription := jsOrNone locationDescription
        boxId := jsOrNone boxId
        pickupCode := pickupCode
        status := some "waiting_for_email" }
    let card := cs.1
    let s0 := cs.2
    let redIdToUse := selectRedId manualRedId ocr
    let extractedFullName := ocrFullName ocr
    let s1 :=
      if jsTruthy redIdToUse || jsTruthy extractedFullName then
        updateCard s0 card.id
          { redId := some (jsOrNone redIdToUse),
            fullName := some (jsOrNone extractedFullName) }
      else s0
    let owner := resolveOwner getEmail redIdToUse extractedFullName
    let nres := notifyAndPersist s1 card.id owner extractedFullName notify
    let emailSentStatus := nres.1
    let emailAddress := nres.2.1
    let s2 := nres.2.2
    let finalCard := (findCardById s2 card.id).getD card
    let referenceCode := refCode card.id
    let redIdForMessage := jsOrS redIdToUse finalCard.redId
    some
      ({ cardId := finalCard.id
         referenceCode := referenceCode
         message := photoMessage ocr redIdForMessage finalCard referenceCode
         boxId := jsOrNone finalCard.boxId
         pickupCode := jsOrNone finalCard.pickupCode
         redId := jsOrS redIdForMessage (jsOrNone finalCard.redId)
         extractedInfo := ocr
         emailSent := emailSentStatus
         emailAddress := jsOrNone emailAddress }, s2)

/-- The JSON body of a successful `POST /found-card-redid` response. -/
structure BoxResponse where
  cardId : String
  pickupCode : String
deriving Repr, DecidableEq

/-- The `POST /found-card-redid` handler (box intake).  `none` models the
400 response when `redId` or `boxId` is falsy. -/
def boxIntake (store : List Card) (freshId : String) (now : Nat)
    (redId boxId : Option String) (getEmail : String → Option String)
    (rand : Nat → Nat) (notify : NotifyOutcome) :
    Option (BoxResponse × List Card) :=
  if !(jsTruthy redId && jsTruthy boxId) then none
  else
    match redId with
    | none => none
    | some r =>
        let code := generatePickupCode rand 4
        let cs := createCard store freshId now
          { redId := some r
            source := some "box"
            boxId := boxId
            pickupCode := some code
            status := some "waiting_for_email" }
        let card := cs.1
        let s0 := cs.2
        let owner : Option Owner :=
          match getEmail r with
          | some em =>
              if em = "" then none
              else some { email := em, fullName := none, redId := r }
          | none => none
        let nres := notifyAndPersist s0 card.id owner none notify
        some ({ cardId := card.id, pickupCode := code }, nres.2.2)

/-- Result of the `POST /cards/:id/set-email` route: `badEmail` is the 400
validation failure, `conflict` the 400 on a card no longer waiting for an
email, `sendFailed` the 500 where the address was saved but sending failed,
`serverError` the outer catch when the notifier throws. -/
inductive SetEmailResult where
  | badEmail
  | notFound
  | conflict
  | success
  | sendFailed
  | serverError
deriving Repr, DecidableEq

/-- The `POST /cards/:id/set-email` handler (manual email assignment). -/
def setEmailRoute (store : List Card) (cardId : String) (email : Option String)
    (rand : Nat → Nat) (notify : NotifyOutcome) : SetEmailResult × List Card :=
  match email with
  | none => (.badEmail, store)
  | some e =>
      if e = "" ∨ e.toList.contains '@' = false then (.badEmail, store)
      else
        match findCardById store cardId with
        | none => (.notFound, store)
        | some card =>
            if card.status ≠ "waiting_for_email" then (.conflict, store)
            else
              let s1 :=
                if jsTruthy card.boxId && !(jsTruthy card.pickupCode) then
                  updateCard store card.id
                    { pickupCode := some (some (generatePickupCode rand 4)) }
                else store
              let s2 := updateCard s1 card.id { email := some (some e) }
              match notify with
              | .success =>
                  (.success, updateCard s2 card.id { status := some "email_sent" })
              | .failure => (.sendFailed, s2)
              | .thrown => (.serverError, s2)

/-- Rank of a status along the lifecycle order
`waiting_for_email < email_sent < picked_up`. -/
def statusRank (s : String) : Nat :=
  if s == "picked_up" then 2 else if s == "email_sent" then 1 else 0

/-- One mutating API operation, with its per-call collaborator outcomes. -/
inductive Op where
  | photo (freshId : String) (now : Nat)
      (finderContact locationDescription boxId manualRedId : Option String)
      (imagePresent : Bool) (ocr : Option ExtractedInfo)
      (getEmail : String → Option String) (rand : Nat → Nat)
      (notify : NotifyOutcome)
  | box (freshId : String) (now : Nat) (redId boxId : Option String)
      (getEmail : String → Option String) (rand : Nat → Nat)
      (notify : NotifyOutcome)
  | setEmail (cardId : String) (email : Option String) (rand : Nat → Nat)
      (notify : NotifyOutcome)
  | pickup (pickupCode boxId : Option String) (now : Nat)

/-- Effect of one operation on the store. -/
def applyOp : Op → List Card → List Card
  | .photo f n fc ld bx mr img ocr ge rand nt, store =>
      match photoIntake store f n fc ld bx mr img ocr ge rand nt with
      | some pr => pr.2
      | none => store
  | .box f n r b ge rand nt, store =>
      match boxIntake store f n r b ge rand nt with
      | some pr => pr.2
      | none => store
  | .setEmail cardId em rand nt, store => (setEmailRoute store cardId em rand nt).2
  | .pickup pc bx now, store => (pickupRequest store pc bx now).2

/-- Effect of a sequence of operations. -/
def applyOps : List Op → List Card → List Card
  | [], store => store
  | op :: rest, store => applyOps rest (applyOp op store)

/-- Wellformedness of one operation against a store: intake operations use a
fresh id (the model of `crypto.randomUUID()` never colliding). -/
def wfOp : Op → List Card → Bool
  | .photo f _ _ _ _ _ _ _ _ _ _, store => !(store.any (fun c => c.id == f))
  | .box f _ _ _ _ _ _, store => !(store.any (fun c => c.id == f))
  | .setEmail _ _ _ _, _ => true
  | .pickup _ _ _, _ => true

/-- Wellformedness of an operation sequence, step by step. -/
def wfSeq : List Op → List Card → Bool
  | [], _ => true
  | op :: rest, store => wfOp op store && wfSeq rest (applyOp op store)

lemma jsTruthy_some {s : String} (h : s ≠ "") : jsTruthy (some s) = true := by
  simp [jsTruthy, h]

lemma jsOrNone_some {s : String} (h : s ≠ "") : jsOrNone (some s) = some s := by
  simp [jsOrNone, jsTruthy_some h]

lemma jsOrNone_none : jsOrNone none = none := by simp [jsOrNone, jsTruthy]

lemma jsOrNone_eq_some {a : Option String} {s : String}
    (h : jsOrNone a = some s) : a = some s ∧ s ≠ "" := by
  unfold jsOrNone at h
  split at h
  · next ht =>
    cases a with
    | none => simp [jsTruthy] at ht
    | some t =>
      cases h
      simp [jsTruthy] at ht
      exact ⟨rfl, ht⟩
  · simp at h

lemma ocrRedId_eq_some {ocr : Option ExtractedInfo} {s : String}
    (h : ocrRedId ocr = some s) : s ≠ "" := by
  cases ocr with
  | none => simp [ocrRedId] at h
  | some e => exact (jsOrNone_eq_some h).2

lemma selectRedId_eq_some {mr : Option String} {ocr : Option ExtractedInfo}
    {s : String} (h : selectRedId mr ocr = some s) : s ≠ "" := by
  unfold selectRedId jsOrS at h
  split at h
  · next ht =>
    cases mr with
    | none => simp [jsTruthy] at ht
    | some m =>
      simp at h
      simp [jsTruthy] at ht
      simpa [← h] using ht
  · exact ocrRedId_eq_some h

lemma selectRedId_manual {m : String} (h : jsTrim m ≠ "")
    (ocr : Option ExtractedInfo) : selectRedId (some m) ocr = some (jsTrim m) := by
  simp [selectRedId, jsOrS, jsTruthy_some h, Option.map]

lemma generatePickupCode_length (rand : Nat → Nat) :
    (generatePickupCode rand 4).length = 4 := by
  simp [generatePickupCode, String.length]

lemma generatePickupCode_ne_empty (rand : Nat → Nat) :
    generatePickupCode rand 4 ≠ "" := by
  intro h
  have := congrArg String.length h
  rw [generatePickupCode_length] at this
  simp [String.length] at this

lemma generatePickupCode_mem (rand : Nat → Nat) :
    ∀ ch ∈ (generatePickupCode rand 4).toList, ch ∈ allowedDigits := by
  intro ch hch
  simp [generatePickupCode, String.toList, String.mk] at hch
  obtain ⟨i, _, hi⟩ := hch
  have h4 : rand i % 4 < allowedDigits.length := by
    simp [allowedDigits]
    omega
  rw [List.getElem?_eq_getElem h4] at hi
  simp at hi
  rw [← hi]
  exact List.getElem_mem h4

lemma applyUpdates_id (u : CardUpdates) (c : Card) :
    (applyUpdates u c).id = c.id := rfl

lemma applyUpdates_boxId (u : CardUpdates) (c : Card) :
    (applyUpdates u c).boxId = c.boxId := rfl

lemma applyUpdates_status_none {u : CardUpdates} (h : u.status = none)
    (c : Card) : (applyUpdates u c).status = c.status := by
  simp [applyUpdates, h]

lemma applyUpdates_pickupCode_none {u : CardUpdates} (h : u.pickupCode = none)
    (c : Card) : (applyUpdates u c).pickupCode = c.pickupCode := by
  simp [applyUpdates, h]

lemma statusRank_le_two (s : String) : statusRank s ≤ 2 := by
  unfold statusRank
  split <;> [omega; (split <;> omega)]

lemma findCardById_append_fresh (store : List Card) (c : Card)
    (h : ∀ d ∈ store, d.id ≠ c.id) :
    findCardById (store ++ [c]) c.id = some c := by
  induction store with
  | nil => simp [findCardById]
  | cons d rest ih =>
    rw [List.cons_append, findCardById, if_neg (h d (List.mem_cons_self d rest))]
    exact ih (fun x hx => h x (List.mem_cons_of_mem d hx))

lemma findCardById_updateCard (store : List Card) (cardId : String)
    (u : CardUpdates) :
    findCardById (updateCard store cardId u) cardId =
      (findCardById store cardId).map (applyUpdates u) := by
  induction store with
  | nil => simp [findCardById, updateCard]
  | cons d rest ih =>
    by_cases h : d.id = cardId
    · rw [updateCard, if_pos h, findCardById, findCardById, if_pos h,
        if_pos (by rw [applyUpdates_id]; exact h)]
      rfl
    · rw [updateCard, if_neg h, findCardById, findCardById, if_neg h, if_neg h]
      exact ih

lemma findCardById_of_mem_nodup {store : List Card} {c : Card}
    (hnd : (store.map (fun x => x.id)).Nodup) (hc : c ∈ store) :
    findCardById store c.id = some c := by
  induction store with
  | nil => simp at hc
  | cons d rest ih =>
    rw [List.map_cons, List.nodup_cons] at hnd
    rcases List.mem_cons.mp hc with h | h
    · rw [h, findCardById, if_pos rfl]
    · have hne : d.id ≠ c.id := by
        intro he
        exact hnd.1 (he ▸ List.mem_map_of_mem (fun x => x.id) h)
      rw [findCardById, if_neg hne]
      exact ih hnd.2 h

lemma findCardByPickupCode_eq_some {store : List Card} {code box : String}
    {c : Card} (h : findCardByPickupCode store code box = some c) :
    c ∈ store ∧ c.pickupCode = some code ∧ c.boxId = some box := by
  induction store with
  | nil => simp [findCardByPickupCode] at h
  | cons d rest ih =>
    rw [findCardByPickupCode] at h
    split at h
    · next hd =>
      cases h
      exact ⟨List.mem_cons_self _ _, hd⟩
    · have := ih h
      exact ⟨List.mem_cons_of_mem d this.1, this.2⟩

lemma findCardByPickupCode_updateCard {store : List Card} {code box : String}
    {c : Card} {u : CardUpdates}
    (hnd : (store.map (fun x => x.id)).Nodup)
    (hfind : findCardByPickupCode store code box = some c)
    (hpc : u.pickupCode = none) :
    findCardByPickupCode (updateCard store c.id u) code box =
      some (applyUpdates u c) := by
  induction store with
  | nil => simp [findCardByPickupCode] at hfind
  | cons d rest ih =>
    rw [List.map_cons, List.nodup_cons] at hnd
    rw [findCardByPickupCode] at hfind
    split at hfind
    · next hd =>
      cases hfind
      rw [updateCard, if_pos rfl, findCardByPickupCode,
        if_pos (by rw [applyUpdates_pickupCode_none hpc, applyUpdates_boxId]; exact hd)]
    · next hd =>
      have hcrest : c ∈ rest := (findCardByPickupCode_eq_some hfind).1
      have hne : d.id ≠ c.id := by
        intro he
        exact hnd.1 (he ▸ List.mem_map_of_mem (fun x => x.id) hcrest)
      rw [updateCard, if_neg hne, findCardByPickupCode, if_neg hd]
      exact ih hnd.2 hfind

lemma findCardByPickupCode_eq_none {store : List Card} {code box : String}
    (h : ∀ c ∈ store, ¬(c.pickupCode = some code ∧ c.boxId = some box)) :
    findCardByPickupCode store code box = none := by
  induction store with
  | nil => rfl
  | cons d rest ih =>
    rw [findCardByPickupCode, if_neg (h d (List.mem_cons_self d rest))]
    exact ih (fun x hx => h x (List.mem_cons_of_mem d hx))

lemma findCardByPickupCode_append_first (l1 l2 : List Card) (c1 : Card)
    (code box : String)
    (hc1 : c1.pickupCode = some code ∧ c1.boxId = some box)
    (hl1 : ∀ d ∈ l1, ¬(d.pickupCode = some code ∧ d.boxId = some box)) :
    findCardByPickupCode (l1 ++ c1 :: l2) code box = some c1 := by
  induction l1 with
  | nil => rw [List.nil_append, findCardByPickupCode, if_pos hc1]
  | cons d rest ih =>
    rw [List.cons_append, findCardByPickupCode,
      if_neg (hl1 d (List.mem_cons_self d rest))]
    exact ih (fun x hx => hl1 x (List.mem_cons_of_mem d hx))

lemma jsOrNone_of_norm {a : Option String}
    (h : ∀ s, a = some s → s ≠ "") : jsOrNone a = a := by
  cases a with
  | none => rfl
  | some s => exact jsOrNone_some (h s rfl)

lemma ocrFullName_eq_some {ocr : Option ExtractedInfo} {s : String}
    (h : ocrFullName ocr = some s) : s ≠ "" := by
  cases ocr with
  | none => simp [ocrFullName] at h
  | some e => exact (jsOrNone_eq_some h).2

lemma jsOrNone_selectRedId (mr : Option String) (ocr : Option ExtractedInfo) :
    jsOrNone (selectRedId mr ocr) = selectRedId mr ocr :=
  jsOrNone_of_norm (fun _ h => selectRedId_eq_some h)

lemma jsOrNone_ocrFullName (ocr : Option ExtractedInfo) :
    jsOrNone (ocrFullName ocr) = ocrFullName ocr :=
  jsOrNone_of_norm (fun _ h => ocrFullName_eq_some h)

lemma jsTruthy_eq_false_of_norm {a : Option String}
    (hn : ∀ s, a = some s → s ≠ "") (h : jsTruthy a = false) : a = none := by
  cases a with
  | none => rfl
  | some s =>
    simp [jsTruthy] at h
    exact absurd h (hn s rfl)

lemma jsOrS_norm_absorb {a : Option String} (hn : jsOrNone a = a) :
    jsOrS a (jsOrNone a) = a := by
  rw [hn, jsOrS, ite_self]

lemma resolveOwner_eq_some {ge : String → Option String}
    {rid efn : Option String} {o : Owner}
    (h : resolveOwner ge rid efn = some o) :
    o.email ≠ "" ∧ o.fullName = efn := by
  unfold resolveOwner at h
  cases rid with
  | none => simp at h
  | some r =>
    simp only at h
    split at h
    · simp at h
    · split at h
      · next em heq =>
        split at h
        · simp at h
        · next hne =>
          cases h
          exact ⟨hne, rfl⟩
      · simp at h

lemma notifyAndPersist_spec (store : List Card) (cid : String)
    (ow : Option Owner) (efn : Option String) (nt : NotifyOutcome) (c : Card)
    (hfind : findCardById store cid = some c)
    (hfn : ∀ o, ow = some o → o.fullName = efn)
    (hefn : jsOrNone efn = efn) :
    (notifyAndPersist store cid ow efn nt).1 =
      (ow.isSome && (nt == NotifyOutcome.success)) ∧
    (notifyAndPersist store cid ow efn nt).2.1 = ow.map (fun o => o.email) ∧
    findCardById (notifyAndPersist store cid ow efn nt).2.2 cid =
      some { c with
        email := ow.elim c.email (fun o => some o.email)
        fullName := ow.elim c.fullName (fun _ => efn)
        status :=
          if ow.isSome && (nt == NotifyOutcome.success) then "email_sent"
          else c.status } := by
  cases ow with
  | none =>
    refine ⟨rfl, rfl, ?_⟩
    rw [notifyAndPersist, hfind]
    rfl
  | some o =>
    have hofn : o.fullName = efn := hfn o rfl
    have hcollapse : jsOrS o.fullName (jsOrNone efn) = efn := by
      rw [hofn]
      exact jsOrS_norm_absorb hefn
    cases nt with
    | success =>
      refine ⟨rfl, rfl, ?_⟩
      rw [notifyAndPersist]
      simp only [findCardById_updateCard, hfind, Option.map_some']
      simp [applyUpdates, hcollapse]
    | failure =>
      refine ⟨rfl, rfl, ?_⟩
      rw [notifyAndPersist]
      simp only [findCardById_updateCard, hfind, Option.map_some']
      simp [applyUpdates, hcollapse]
    | thrown =>
      refine ⟨rfl, rfl, ?_⟩
      rw [notifyAndPersist]
      simp only [findCardById_updateCard, hfind, Option.map_some']
      simp [applyUpdates, hcollapse]

lemma jsOrNone_idem (a : Option String) : jsOrNone (jsOrNone a) = jsOrNone a := by
  cases a with
  | none => rfl
  | some s =>
    by_cases h : s = ""
    · simp [jsOrNone, jsTruthy, h]
    · simp [jsOrNone, jsTruthy, h]

lemma jsOrS_self (a : Option String) : jsOrS a a = a := by
  rw [jsOrS, ite_self]

lemma jsOrNone_pc (bx : Option String) (rand : Nat → Nat) :
    jsOrNone (if jsTruthy bx then some (generatePickupCode rand 4) else none) =
      (if jsTruthy bx then some (generatePickupCode rand 4) else none) := by
  split
  · exact jsOrNone_some (generatePickupCode_ne_empty rand)
  · rfl

lemma jsOrNone_resolveOwner_email (ge : String → Option String)
    (rid efn : Option String) :
    jsOrNone ((resolveOwner ge rid efn).map (fun o => o.email)) =
      (resolveOwner ge rid efn).map (fun o => o.email) := by
  cases h : resolveOwner ge rid efn with
  | none => rfl
  | some o =>
    simp only [Option.map_some']
    exact jsOrNone_some (resolveOwner_eq_some h).1

lemma photoIntake_spec (store : List Card) (f : String) (n : Nat)
    (fc ld bx mr : Option String) (ocr : Option ExtractedInfo)
    (ge : String → Option String) (rand : Nat → Nat) (nt : NotifyOutcome)
    (hfresh : ∀ d ∈ store, d.id ≠ f) :
    ∃ s' msg,
      photoIntake store f n fc ld bx mr true ocr ge rand nt =
        some
          ({ cardId := f
             referenceCode := refCode f
             message := msg
             boxId := jsOrNone bx
             pickupCode :=
               if jsTruthy bx then some (generatePickupCode rand 4) else none
             redId := selectRedId mr ocr
             extractedInfo := ocr
             emailSent :=
               (resolveOwner ge (selectRedId mr ocr) (ocrFullName ocr)).isSome &&
                 (nt == NotifyOutcome.success)
             emailAddress :=
               (resolveOwner ge (selectRedId mr ocr) (ocrFullName ocr)).map
                 (fun o => o.email) }, s') ∧
      findCardById s' f =
        some
          { id := f
            redId := selectRedId mr ocr
            fullName := ocrFullName ocr
            email :=
              (resolveOwner ge (selectRedId mr ocr) (ocrFullName ocr)).map
                (fun o => o.email)
            source := some "web"
            finderContact := jsOrNone fc
            locationDescription := jsOrNone ld
            boxId := jsOrNone bx
            pickupCode :=
              if jsTruthy bx then some (generatePickupCode rand 4) else none
            status :=
              if (resolveOwner ge (selectRedId mr ocr) (ocrFullName ocr)).isSome &&
                  (nt == NotifyOutcome.success) then "email_sent"
              else "waiting_for_email"
            createdAt := n
            pickedUpAt := none } := by
  have hfind0 :
      findCardById
        (store ++
          [{ id := f, redId := none, fullName := none, email := none,
             source := some "web", finderContact := jsOrNone fc,
             locationDescription := jsOrNone ld, boxId := jsOrNone bx,
             pickupCode :=
               if jsTruthy bx then some (generatePickupCode rand 4) else none,
             status := "waiting_for_email", createdAt := n,
             pickedUpAt := none }]) f =
      some
        { id := f, redId := none, fullName := none, email := none,
          source := some "web", finderContact := jsOrNone fc,
          locationDescription := jsOrNone ld, boxId := jsOrNone bx,
          pickupCode :=
            if jsTruthy bx then some (generatePickupCode rand 4) else none,
          status := "waiting_for_email", createdAt := n,
          pickedUpAt := none } :=
    findCardById_append_fresh store _ (fun d hd => hfresh d hd)
  have hs1 :
      findCardById
        (if jsTruthy (selectRedId mr ocr) || jsTruthy (ocrFullName ocr) then
          updateCard
            (store ++
              [{ id := f, redId := none, fullName := none, email := none,
                 source := some "web", finderContact := jsOrNone fc,
                 locationDescription := jsOrNone ld, boxId := jsOrNone bx,
                 pickupCode :=
                   if jsTruthy bx then some (generatePickupCode rand 4)
                   else none,
                 status := "waiting_for_email", createdAt := n,
                 pickedUpAt := none }]) f
            { redId := some (jsOrNone (selectRedId mr ocr)),
              fullName := some (jsOrNone (ocrFullName ocr)) }
        else
          store ++
            [{ id := f, redId := none, fullName := none, email := none,
               source := some "web", finderContact := jsOrNone fc,
               locationDescription := jsOrNone ld, boxId := jsOrNone bx,
               pickupCode :=
                 if jsTruthy bx then some (generatePickupCode rand 4)
                 else none,
               status := "waiting_for_email", createdAt := n,
               pickedUpAt := none }]) f =
      some
        { id := f, redId := selectRedId mr ocr,
          fullName := ocrFullName ocr, email := none,
          source := some "web", finderContact := jsOrNone fc,
          locationDescription := jsOrNone ld, boxId := jsOrNone bx,
          pickupCode :=
            if jsTruthy bx then some (generatePickupCode rand 4) else none,
          status := "waiting_for_email", createdAt := n,
          pickedUpAt := none } := by
    by_cases hcnd :
        (jsTruthy (selectRedId mr ocr) || jsTruthy (ocrFullName ocr)) = true
    · rw [if_pos hcnd, findCardById_updateCard, hfind0]
      simp [applyUpdates, jsOrNone_selectRedId, jsOrNone_ocrFullName]
    · have hor := hcnd
      simp only [Bool.or_eq_true, not_or, Bool.not_eq_true] at hor
      have hr0 : selectRedId mr ocr = none :=
        jsTruthy_eq_false_of_norm (fun _ h => selectRedId_eq_some h) hor.1
      have he0 : ocrFullName ocr = none :=
        jsTruthy_eq_false_of_norm (fun _ h => ocrFullName_eq_some h) hor.2
      rw [if_neg hcnd, hr0, he0]
      exact hfind0
  have key := notifyAndPersist_spec _ f
    (resolveOwner ge (selectRedId mr ocr) (ocrFullName ocr))
    (ocrFullName ocr) nt _ hs1
    (fun o ho => (resolveOwner_eq_some ho).2)
    (jsOrNone_ocrFullName ocr)
  obtain ⟨kE, kA, kF⟩ := key
  simp only [jsOrNone_selectRedId, jsOrNone_ocrFullName] at kE kA kF
  refine ⟨_, _, by
      simp only [photoIntake, createCard, Bool.not_true, Bool.false_eq_true,
        if_false, jsOrNone_selectRedId, jsOrNone_ocrFullName, kF,
        Option.getD_some, kE, kA, jsOrNone_idem, jsOrNone_pc, jsOrS_self,
        jsOrS_norm_absorb (jsOrNone_selectRedId mr ocr),
        jsOrNone_resolveOwner_email]
      rfl, ?_⟩
  rw [kF]
  cases howq : resolveOwner ge (selectRedId mr ocr) (ocrFullName ocr) with
  | none => rfl
  | some o => rfl
lemma boxIntake_spec (store : List Card) (f : String) (n : Nat)
    (r b : String) (ge : String → Option String) (rand : Nat → Nat)
    (nt : NotifyOutcome) (hr : r ≠ "") (hb : b ≠ "")
    (hfresh : ∀ d ∈ store, d.id ≠ f) :
    ∃ s',
      boxIntake store f n (some r) (some b) ge rand nt =
        some ({ cardId := f, pickupCode := generatePickupCode rand 4 }, s') ∧
      findCardById s' f =
        some
          { id := f, redId := some r, fullName := none,
            email := jsOrNone (ge r), source := some "box",
            finderContact := none, locationDescription := none,
            boxId := some b, pickupCode := some (generatePickupCode rand 4),
            status :=
              if (jsOrNone (ge r)).isSome && (nt == NotifyOutcome.success) then
                "email_sent"
              else "waiting_for_email",
            createdAt := n, pickedUpAt := none } := by
  have hfind0 :
      findCardById
        (store ++
          [{ id := f, redId := some r, fullName := none, email := none,
             source := some "box", finderContact := none,
             locationDescription := none, boxId := some b,
             pickupCode := some (generatePickupCode rand 4),
             status := "waiting_for_email", createdAt := n,
             pickedUpAt := none }]) f =
      some
        { id := f, redId := some r, fullName := none, email := none,
          source := some "box", finderContact := none,
          locationDescription := none, boxId := some b,
          pickupCode := some (generatePickupCode rand 4),
          status := "waiting_for_email", createdAt := n,
          pickedUpAt := none } :=
    findCardById_append_fresh store _ (fun d hd => hfresh d hd)
  cases hger : ge r with
  | none =>
    have key := notifyAndPersist_spec _ f none none nt _ hfind0
      (fun o ho => by cases ho) rfl
    obtain ⟨kE, kA, kF⟩ := key
    refine ⟨_, by
        simp only [boxIntake, jsTruthy_some hr, jsTruthy_some hb,
          Bool.and_self, Bool.not_true, Bool.false_eq_true, if_false,
          createCard, Option.getD_some, hger]
        rfl, ?_⟩
    rw [kF]
    rfl
  | some em =>
    by_cases hem : em = ""
    · subst hem
      have key := notifyAndPersist_spec _ f none none nt _ hfind0
        (fun o ho => by cases ho) rfl
      obtain ⟨kE, kA, kF⟩ := key
      refine ⟨_, by
          simp only [boxIntake, jsTruthy_some hr, jsTruthy_some hb,
            Bool.and_self, Bool.not_true, Bool.false_eq_true, if_false,
            createCard, Option.getD_some, hger, eq_self_iff_true, if_true]
          rfl, ?_⟩
      rw [kF]
      rfl
    · have key := notifyAndPersist_spec _ f
        (some { email := em, fullName := none, redId := r }) none nt _ hfind0
        (fun o ho => by cases ho; rfl) rfl
      obtain ⟨kE, kA, kF⟩ := key
      refine ⟨_, by
          simp only [boxIntake, jsTruthy_some hr, jsTruthy_some hb,
            Bool.and_self, Bool.not_true, Bool.false_eq_true, if_false,
            createCard, Option.getD_some, hger, if_neg hem]
          rfl, ?_⟩
      rw [kF]
      simp [jsOrNone_some hem]

lemma pickupUpdates_applyUpdates (c : Card) (now : Nat) :
    applyUpdates { status := some "picked_up", pickedUpAt := some now } c =
      { c with status := "picked_up", pickedUpAt := some now } := rfl

/-- Claim C1.  For a card holding a valid (pickupCode, boxId) pair that has
not yet been picked up, the first pickup request succeeds (`ok` with the
card's id) and stamps `pickedUpAt` with the request time; every later call
with the same pair reports the structured outcome `already_picked_up` and
leaves the store — in particular `pickedUpAt` — completely unchanged. -/
theorem pickup_request_idempotent_second_call (store : List Card)
    (code box : String) (now1 now2 : Nat) (c : Card)
    (hnd : (store.map (fun x => x.id)).Nodup)
    (hcode : code ≠ "") (hbox : box ≠ "")
    (hfind : findCardByPickupCode store code box = some c)
    (hst : c.status ≠ "picked_up") :
    pickupRequest store (some code) (some box) now1 =
      (.ok c.id,
       updateCard store c.id
         { status := some "picked_up", pickedUpAt := some now1 }) ∧
    findCardById
        (updateCard store c.id
          { status := some "picked_up", pickedUpAt := some now1 }) c.id =
      some { c with status := "picked_up", pickedUpAt := some now1 } ∧
    pickupRequest
        (updateCard store c.id
          { status := some "picked_up", pickedUpAt := some now1 })
        (some code) (some box) now2 =
      (.alreadyPickedUp,
       updateCard store c.id
         { status := some "picked_up", pickedUpAt := some now1 }) := by
  have hmem := (findCardByPickupCode_eq_some hfind).1
  refine ⟨?_, ?_, ?_⟩
  · rw [pickupRequest, if_neg (by push_neg; exact ⟨hcode, hbox⟩), hfind]
    simp [hst]
  · rw [findCardById_updateCard, findCardById_of_mem_nodup hnd hmem]
    rfl
  · rw [pickupRequest, if_neg (by push_neg; exact ⟨hcode, hbox⟩),
      findCardByPickupCode_updateCard hnd hfind rfl]
    simp [applyUpdates]

/-- Witness for C1 at a concrete store of one notified card. -/
theorem pickup_request_idempotent_second_call_witness :
    pickupRequest
        [{ id := "card-1", redId := none, fullName := none, email := none,
           source := some "web", finderContact := none,
           locationDescription := none, boxId := some "BOX_1",
           pickupCode := some "1234", status := "email_sent", createdAt := 0,
           pickedUpAt := none }] (some "1234") (some "BOX_1") 5 =
      (.ok "card-1",
       [{ id := "card-1", redId := none, fullName := none, email := none,
          source := some "web", finderContact := none,
          locationDescription := none, boxId := some "BOX_1",
          pickupCode := some "1234", status := "picked_up", createdAt := 0,
          pickedUpAt := some 5 }]) ∧
    pickupRequest
        [{ id := "card-1", redId := none, fullName := none, email := none,
           source := some "web", finderContact := none,
           locationDescription := none, boxId := some "BOX_1",
           pickupCode := some "1234", status := "picked_up", createdAt := 0,
           pickedUpAt := some 5 }] (some "1234") (some "BOX_1") 9 =
      (.alreadyPickedUp,
       [{ id := "card-1", redId := none, fullName := none, email := none,
          source := some "web", finderContact := none,
          locationDescription := none, boxId := some "BOX_1",
          pickupCode := some "1234", status := "picked_up", createdAt := 0,
          pickedUpAt := some 5 }]) := by
  have h := pickup_request_idempotent_second_call
    [{ id := "card-1", redId := none, fullName := none, email := none,
       source := some "web", finderContact := none,
       locationDescription := none, boxId := some "BOX_1",
       pickupCode := some "1234", status := "email_sent", createdAt := 0,
       pickedUpAt := none }] "1234" "BOX_1" 5 9
    { id := "card-1", redId := none, fullName := none, email := none,
      source := some "web", finderContact := none,
      locationDescription := none, boxId := some "BOX_1",
      pickupCode := some "1234", status := "email_sent", createdAt := 0,
      pickedUpAt := none }
    (by decide) (by decide) (by decide) (by decide) (by decide)
  refine ⟨?_, ?_⟩
  · have h1 := h.1
    rw [h1]
    decide
  · have h3 := h.2.2
    rw [show (updateCard
        [{ id := "card-1", redId := none, fullName := none, email := none,
           source := some "web", finderContact := none,
           locationDescription := none, boxId := some "BOX_1",
           pickupCode := some "1234", status := "email_sent", createdAt := 0,
           pickedUpAt := none }] "card-1"
         { status := some "picked_up", pickedUpAt := some 5 }) =
        [{ id := "card-1", redId := none, fullName := none, email := none,
           source := some "web", finderContact := none,
           locationDescription := none, boxId := some "BOX_1",
           pickupCode := some "1234", status := "picked_up", createdAt := 0,
           pickedUpAt := some 5 }] from by decide] at h3
    exact h3

/-- Claim C3.  A pickup request whose (pickupCode, boxId) pair matches no
stored card returns the structured outcome `invalid_code` and mutates
nothing: the store after the call is exactly the store before. -/
theorem pickup_request_invalid_code_no_mutation (store : List Card)
    (code box : String) (now : Nat) (hcode : code ≠ "") (hbox : box ≠ "")
    (h : ∀ c ∈ store, ¬(c.pickupCode = some code ∧ c.boxId = some box)) :
    pickupRequest store (some code) (some box) now = (.invalidCode, store) := by
  rw [pickupRequest, if_neg (by push_neg; exact ⟨hcode, hbox⟩),
    findCardByPickupCode_eq_none h]

/-- Witness for C3 at a concrete store whose only card has another code. -/
theorem pickup_request_invalid_code_no_mutation_witness :
    pickupRequest
        [{ id := "card-1", redId := none, fullName := none, email := none,
           source := some "web", finderContact := none,
           locationDescription := none, boxId := some "BOX_1",
           pickupCode := some "1234", status := "email_sent", createdAt := 0,
           pickedUpAt := none }] (some "4321") (some "BOX_1") 5 =
      (.invalidCode,
       [{ id := "card-1", redId := none, fullName := none, email := none,
          source := some "web", finderContact := none,
          locationDescription := none, boxId := some "BOX_1",
          pickupCode := some "1234", status := "email_sent", createdAt := 0,
          pickedUpAt := none }]) :=
  pickup_request_invalid_code_no_mutation _ "4321" "BOX_1" 5
    (by decide) (by decide) (by decide)

/-- Claim C5.  A pickup request with the correct (pickupCode, boxId) on a
card in any non-terminal state — in particular one still in
`waiting_for_email` that was never notified — succeeds, transitions the
card to `picked_up` and stamps `pickedUpAt`, by exactly the same update as
for a notified card. -/
theorem pickup_valid_from_any_nonterminal_state (store : List Card)
    (code box : String) (now : Nat) (c : Card)
    (hnd : (store.map (fun x => x.id)).Nodup)
    (hcode : code ≠ "") (hbox : box ≠ "")
    (hfind : findCardByPickupCode store code box = some c)
    (hst : c.status ≠ "picked_up") :
    pickupRequest store (some code) (some box) now =
      (.ok c.id,
       updateCard store c.id
         { status := some "picked_up", pickedUpAt := some now }) ∧
    findCardById
        (updateCard store c.id
          { status := some "picked_up", pickedUpAt := some now }) c.id =
      some { c with status := "picked_up", pickedUpAt := some now } := by
  have hmem := (findCardByPickupCode_eq_some hfind).1
  refine ⟨?_, ?_⟩
  · rw [pickupRequest, if_neg (by push_neg; exact ⟨hcode, hbox⟩), hfind]
    simp [hst]
  · rw [findCardById_updateCard, findCardById_of_mem_nodup hnd hmem]
    rfl

/-- Witness for C5 at a card still in `waiting_for_email` (never notified). -/
theorem pickup_valid_from_any_nonterminal_state_witness :
    pickupRequest
        [{ id := "card-7", redId := none, fullName := none, email := none,
           source := some "box", finderContact := none,
           locationDescription := none, boxId := some "BOX_2",
           pickupCode := some "4411", status := "waiting_for_email",
           createdAt := 3, pickedUpAt := none }]
        (some "4411") (some "BOX_2") 8 =
      (.ok "card-7",
       [{ id := "card-7", redId := none, fullName := none, email := none,
          source := some "box", finderContact := none,
          locationDescription := none, boxId := some "BOX_2",
          pickupCode := some "4411", status := "picked_up", createdAt := 3,
          pickedUpAt := some 8 }]) := by
  have h := pickup_valid_from_any_nonterminal_state
    [{ id := "card-7", redId := none, fullName := none, email := none,
       source := some "box", finderContact := none,
       locationDescription := none, boxId := some "BOX_2",
       pickupCode := some "4411", status := "waiting_for_email",
       createdAt := 3, pickedUpAt := none }] "4411" "BOX_2" 8
    { id := "card-7", redId := none, fullName := none, email := none,
      source := some "box", finderContact := none,
      locationDescription := none, boxId := some "BOX_2",
      pickupCode := some "4411", status := "waiting_for_email",
      createdAt := 3, pickedUpAt := none }
    (by decide) (by decide) (by decide) (by decide) (by decide)
  rw [h.1]
  decide

/-- Claim C7.  Manual email assignment with a syntactically valid address on
a card whose status is not `waiting_for_email` fails with the conflict
outcome and returns the store untouched: no field of any card changes. -/
theorem set_email_conflict_leaves_card_unchanged (store : List Card)
    (cardId e : String) (rand : Nat → Nat) (nt : NotifyOutcome) (c : Card)
    (he : e ≠ "") (hat : e.toList.contains '@' = true)
    (hc : findCardById store cardId = some c)
    (hst : c.status ≠ "waiting_for_email") :
    setEmailRoute store cardId (some e) rand nt = (.conflict, store) := by
  have hcond : ¬(e = "" ∨ e.toList.contains '@' = false) := by
    push_neg
    exact ⟨he, by simpa using hat⟩
  simp only [setEmailRoute, if_neg hcond, hc, if_pos hst]

/-- Witness for C7 at a concrete picked-up card. -/
theorem set_email_conflict_leaves_card_unchanged_witness :
    setEmailRoute
        [{ id := "card-9", redId := none, fullName := none, email := none,
           source := some "web", finderContact := none,
           locationDescription := none, boxId := some "BOX_1",
           pickupCode := some "2222", status := "picked_up", createdAt := 1,
           pickedUpAt := some 2 }] "card-9" (some "a@b.c") (fun _ => 0)
        .success =
      (.conflict,
       [{ id := "card-9", redId := none, fullName := none, email := none,
          source := some "web", finderContact := none,
          locationDescription := none, boxId := some "BOX_1",
          pickupCode := some "2222", status := "picked_up", createdAt := 1,
          pickedUpAt := some 2 }]) :=
  set_email_conflict_leaves_card_unchanged _ "card-9" "a@b.c" (fun _ => 0)
    .success
    { id := "card-9", redId := none, fullName := none, email := none,
      source := some "web", finderContact := none,
      locationDescription := none, boxId := some "BOX_1",
      pickupCode := some "2222", status := "picked_up", createdAt := 1,
      pickedUpAt := some 2 }
    (by decide) (by decide) (by decide) (by decide)

lemma findCardByRefAux_exists {store : List Card} {nq : String}
    (h : ∃ c ∈ store, refCode c.id = nq) :
    ∃ c', findCardByRefAux store nq = some c' ∧ refCode c'.id = nq := by
  induction store with
  | nil => simp at h
  | cons d rest ih =>
    by_cases hd : refCode d.id = nq
    · exact ⟨d, by rw [findCardByRefAux, if_pos hd], hd⟩
    · rw [findCardByRefAux, if_neg hd]
      obtain ⟨c, hc, hcq⟩ := h
      rcases List.mem_cons.mp hc with rfl | hcr
      · exact absurd hcq hd
      · exact ih ⟨c, hcr, hcq⟩

/-- Claim C9.  Reference-code lookup is case-insensitive: two non-empty
queries that agree after trimming and uppercasing yield the same lookup
result (so `"a1b2c3d4"` and `"A1B2C3D4"` return the same card), and a query
matching the derived reference code of some stored card returns a card with
that reference code. -/
theorem reference_code_lookup_case_insensitive (store : List Card)
    (q1 q2 : String) (h1 : q1 ≠ "") (h2 : q2 ≠ "")
    (hq : jsUpper (jsTrim q1) = jsUpper (jsTrim q2)) :
    findCardByReferenceCode store q1 = findCardByReferenceCode store q2 ∧
    (∀ c ∈ store, refCode c.id = jsUpper (jsTrim q1) →
      ∃ c', findCardByReferenceCode store q1 = some c' ∧
        refCode c'.id = refCode c.id) := by
  constructor
  · rw [findCardByReferenceCode, if_neg h1, findCardByReferenceCode,
      if_neg h2, hq]
  · intro c hc hcq
    rw [findCardByReferenceCode, if_neg h1]
    obtain ⟨c', hfind, hcode⟩ := findCardByRefAux_exists ⟨c, hc, hcq⟩
    exact ⟨c', hfind, by rw [hcode, hcq]⟩

/-- Witness for C9: the two spellings from the spec on a concrete store. -/
theorem reference_code_lookup_case_insensitive_witness :
    findCardByReferenceCode
        [{ id := "a1b2c3d4-0000-4000-8000-000000000000", redId := none,
           fullName := none, email := none, source := some "web",
           finderContact := none, locationDescription := none, boxId := none,
           pickupCode := none, status := "waiting_for_email", createdAt := 0,
           pickedUpAt := none }] "a1b2c3d4" =
      findCardByReferenceCode
        [{ id := "a1b2c3d4-0000-4000-8000-000000000000", redId := none,
           fullName := none, email := none, source := some "web",
           finderContact := none, locationDescription := none, boxId := none,
           pickupCode := none, status := "waiting_for_email", createdAt := 0,
           pickedUpAt := none }] "A1B2C3D4" :=
  (reference_code_lookup_case_insensitive
    [{ id := "a1b2c3d4-0000-4000-8000-000000000000", redId := none,
       fullName := none, email := none, source := some "web",
       finderContact := none, locationDescription := none, boxId := none,
       pickupCode := none, status := "waiting_for_email", createdAt := 0,
       pickedUpAt := none }] "a1b2c3d4" "A1B2C3D4"
    (by decide) (by decide) (by decide)).1

/-- Claim C10.  When two stored cards share the same (pickupCode, boxId)
pair, lookup returns the earliest-inserted matching card `c1`, never the
later `c2`; consequently once `c1` is picked up every further pickup request
with that pair returns `already_picked_up` and leaves the store unchanged,
so the later card can never be picked up through that pair. -/
theorem pickup_code_collision_first_match_wins (l1 l2 : List Card)
    (c1 c2 : Card) (code box : String) (now : Nat)
    (hne : c1 ≠ c2) (_hc2 : c2 ∈ l2)
    (hm1 : c1.pickupCode = some code ∧ c1.boxId = some box)
    (_hm2 : c2.pickupCode = some code ∧ c2.boxId = some box)
    (hl1 : ∀ d ∈ l1, ¬(d.pickupCode = some code ∧ d.boxId = some box))
    (hcode : code ≠ "") (hbox : box ≠ "") :
    findCardByPickupCode (l1 ++ c1 :: l2) code box = some c1 ∧
    findCardByPickupCode (l1 ++ c1 :: l2) code box ≠ some c2 ∧
    (c1.status = "picked_up" →
      pickupRequest (l1 ++ c1 :: l2) (some code) (some box) now =
        (.alreadyPickedUp, l1 ++ c1 :: l2)) := by
  have hfind := findCardByPickupCode_append_first l1 l2 c1 code box hm1 hl1
  refine ⟨hfind, ?_, ?_⟩
  · rw [hfind]
    simp [hne]
  · intro hp
    rw [pickupRequest, if_neg (by push_neg; exact ⟨hcode, hbox⟩), hfind]
    simp [hp]

/-- Witness for C10: two cards sharing code 1234 in BOX_1, first picked up. -/
theorem pickup_code_collision_first_match_wins_witness :
    findCardByPickupCode
        [{ id := "card-a", redId := none, fullName := none, email := none,
           source := some "web", finderContact := none,
           locationDescription := none, boxId := some "BOX_1",
           pickupCode := some "1234", status := "picked_up", createdAt := 0,
           pickedUpAt := some 4 },
         { id := "card-b", redId := none, fullName := none, email := none,
           source := some "web", finderContact := none,
           locationDescription := none, boxId := some "BOX_1",
           pickupCode := some "1234", status := "email_sent", createdAt := 1,
           pickedUpAt := none }] "1234" "BOX_1" =
      some { id := "card-a", redId := none, fullName := none, email := none,
             source := some "web", finderContact := none,
             locationDescription := none, boxId := some "BOX_1",
             pickupCode := some "1234", status := "picked_up", createdAt := 0,
             pickedUpAt := some 4 } ∧
    pickupRequest
        [{ id := "card-a", redId := none, fullName := none, email := none,
           source := some "web", finderContact := none,
           locationDescription := none, boxId := some "BOX_1",
           pickupCode := some "1234", status := "picked_up", createdAt := 0,
           pickedUpAt := some 4 },
         { id := "card-b", redId := none, fullName := none, email := none,
           source := some "web", finderContact := none,
           locationDescription := none, boxId := some "BOX_1",
           pickupCode := some "1234", status := "email_sent", createdAt := 1,
           pickedUpAt := none }] (some "1234") (some "BOX_1") 7 =
      (.alreadyPickedUp,
       [{ id := "card-a", redId := none, fullName := none, email := none,
          source := some "web", finderContact := none,
          locationDescription := none, boxId := some "BOX_1",
          pickupCode := some "1234", status := "picked_up", createdAt := 0,
          pickedUpAt := some 4 },
        { id := "card-b", redId := none, fullName := none, email := none,
          source := some "web", finderContact := none,
          locationDescription := none, boxId := some "BOX_1",
          pickupCode := some "1234", status := "email_sent", createdAt := 1,
          pickedUpAt := none }]) := by
  have h := pickup_code_collision_first_match_wins []
    [{ id := "card-b", redId := none, fullName := none, email := none,
       source := some "web", finderContact := none,
       locationDescription := none, boxId := some "BOX_1",
       pickupCode := some "1234", status := "email_sent", createdAt := 1,
       pickedUpAt := none }]
    { id := "card-a", redId := none, fullName := none, email := none,
      source := some "web", finderContact := none,
      locationDescription := none, boxId := some "BOX_1",
      pickupCode := some "1234", status := "picked_up", createdAt := 0,
      pickedUpAt := some 4 }
    { id := "card-b", redId := none, fullName := none, email := none,
      source := some "web", finderContact := none,
      locationDescription := none, boxId := some "BOX_1",
      pickupCode := some "1234", status := "email_sent", createdAt := 1,
      pickedUpAt := none } "1234" "BOX_1" 7
    (by decide) (by decide) (by decide) (by decide) (by decide)
    (by decide) (by decide)
  exact ⟨h.1, h.2.2 rfl⟩

lemma statusRank_le_one_of_ne {s : String} (h : s ≠ "picked_up") :
    statusRank s ≤ 1 := by
  unfold statusRank
  rw [if_neg (by simpa using h)]
  split <;> omega

lemma updateCard_pointwise (store : List Card) (cid : String)
    (u : CardUpdates) (i : Nat) (c : Card) (hc : store[i]? = some c) :
    ∃ c', (updateCard store cid u)[i]? = some c' ∧ c'.id = c.id ∧
      (c' = c ∨ (findCardById store cid = some c ∧ c' = applyUpdates u c)) := by
  induction store generalizing i with
  | nil => simp at hc
  | cons d rest ih =>
    by_cases hd : d.id = cid
    · rw [updateCard, if_pos hd]
      cases i with
      | zero =>
        rw [List.getElem?_cons_zero] at hc
        cases hc
        exact ⟨applyUpdates u c, by simp, applyUpdates_id u c,
          Or.inr ⟨by rw [findCardById, if_pos hd], rfl⟩⟩
      | succ j =>
        rw [List.getElem?_cons_succ] at hc
        rw [List.getElem?_cons_succ]
        exact ⟨c, hc, rfl, Or.inl rfl⟩
    · rw [updateCard, if_neg hd]
      cases i with
      | zero =>
        rw [List.getElem?_cons_zero] at hc
        cases hc
        exact ⟨c, by simp, rfl, Or.inl rfl⟩
      | succ j =>
        rw [List.getElem?_cons_succ] at hc
        rw [List.getElem?_cons_succ]
        obtain ⟨c', h1, h2, h3⟩ := ih j hc
        refine ⟨c', h1, h2, ?_⟩
        rcases h3 with h | ⟨hf, he⟩
        · exact Or.inl h
        · exact Or.inr ⟨by rw [findCardById, if_neg hd]; exact hf, he⟩

lemma rankMono_updateCard (store : List Card) (cid : String) (u : CardUpdates)
    (i : Nat) (c : Card) (hc : store[i]? = some c)
    (hm : ∀ c0, findCardById store cid = some c0 →
      statusRank c0.status ≤ statusRank (applyUpdates u c0).status) :
    ∃ c', (updateCard store cid u)[i]? = some c' ∧ c'.id = c.id ∧
      statusRank c.status ≤ statusRank c'.status := by
  obtain ⟨c', h1, h2, h3⟩ := updateCard_pointwise store cid u i c hc
  rcases h3 with h | ⟨hf, he⟩
  · exact ⟨c', h1, h2, by rw [h]⟩
  · exact ⟨c', h1, h2, he ▸ hm c hf⟩

lemma notifyAndPersist_store_mono (st : List Card) (cid : String)
    (ow : Option Owner) (efn : Option String) (nt : NotifyOutcome) (i : Nat)
    (c : Card) (hc : st[i]? = some c)
    (hwait : ∀ c0, findCardById st cid = some c0 →
      c0.status ≠ "picked_up") :
    ∃ c', (notifyAndPersist st cid ow efn nt).2.2[i]? = some c' ∧
      c'.id = c.id ∧ statusRank c.status ≤ statusRank c'.status := by
  cases ow with
  | none => exact ⟨c, hc, rfl, le_refl _⟩
  | some o =>
    cases nt with
    | success =>
      refine rankMono_updateCard _ _ _ _ _ hc (fun c0 hf => ?_)
      have h1 := statusRank_le_one_of_ne (hwait c0 hf)
      have h2 : (applyUpdates
          { status := some "email_sent", email := some (some o.email),
            fullName := some (jsOrS o.fullName (jsOrNone efn)) } c0).status =
          "email_sent" := rfl
      rw [h2]
      simpa [statusRank] using h1
    | failure =>
      refine rankMono_updateCard _ _ _ _ _ hc (fun c0 _ => ?_)
      rw [applyUpdates_status_none rfl]
    | thrown =>
      refine rankMono_updateCard _ _ _ _ _ hc (fun c0 _ => ?_)
      rw [applyUpdates_status_none rfl]

lemma getElem?_append_card (store : List Card) (x : Card) (i : Nat) (c : Card)
    (hc : store[i]? = some c) : (store ++ [x])[i]? = some c := by
  have hlt : i < store.length := by
    by_contra hge
    rw [List.getElem?_eq_none (Nat.le_of_not_lt hge)] at hc
    cases hc
  rw [List.getElem?_append_left hlt]
  exact hc

lemma wfOp_fresh {f : String} {store : List Card}
    (h : (!(store.any (fun c => c.id == f))) = true) :
    ∀ d ∈ store, d.id ≠ f := by
  intro d hd
  simp only [Bool.not_eq_true', List.any_eq_false] at h
  simpa using h d hd

lemma intake_chain_mono (store : List Card) (f : String) (c0 : Card)
    (u1 : CardUpdates) (ow : Option Owner) (efn : Option String)
    (nt : NotifyOutcome) (i : Nat) (c : Card)
    (hid0 : c0.id = f) (hst0 : c0.status = "waiting_for_email")
    (hu1 : u1.status = none)
    (hfresh : ∀ d ∈ store, d.id ≠ f) (hc : store[i]? = some c) :
    ∀ s1, (s1 = updateCard (store ++ [c0]) f u1 ∨ s1 = store ++ [c0]) →
    ∃ c', (notifyAndPersist s1 f ow efn nt).2.2[i]? = some c' ∧
      c'.id = c.id ∧ statusRank c.status ≤ statusRank c'.status := by
  intro s1 hs1
  have hc0 : (store ++ [c0])[i]? = some c := getElem?_append_card store c0 i c hc
  have hfind0 : findCardById (store ++ [c0]) f = some c0 := by
    rw [← hid0]
    exact findCardById_append_fresh store c0 (fun d hd => hid0 ▸ hfresh d hd)
  rcases hs1 with rfl | rfl
  · obtain ⟨c1, h1, hid1, hr1⟩ :=
      rankMono_updateCard (store ++ [c0]) f u1 i c hc0
        (fun d _ => by rw [applyUpdates_status_none hu1])
    have hfind1 : findCardById (updateCard (store ++ [c0]) f u1) f =
        some (applyUpdates u1 c0) := by
      rw [findCardById_updateCard, hfind0, Option.map_some']
    obtain ⟨c2, h2, hid2, hr2⟩ :=
      notifyAndPersist_store_mono _ f ow efn nt i c1 h1
        (fun d hd => by
          rw [hfind1] at hd
          cases hd
          rw [applyUpdates_status_none hu1, hst0]
          decide)
    exact ⟨c2, h2, by rw [hid2, hid1], le_trans hr1 hr2⟩
  · obtain ⟨c2, h2, hid2, hr2⟩ :=
      notifyAndPersist_store_mono _ f ow efn nt i c hc0
        (fun d hd => by
          rw [hfind0] at hd
          cases hd
          rw [hst0]
          decide)
    exact ⟨c2, h2, hid2, hr2⟩

lemma findCardById_id {store : List Card} {cid : String} {c : Card}
    (h : findCardById store cid = some c) : c.id = cid := by
  induction store with
  | nil => simp [findCardById] at h
  | cons d rest ih =>
    rw [findCardById] at h
    split at h
    · next hd =>
      cases h
      exact hd
    · exact ih h

lemma setEmail_chain_mono (store : List Card) (card : Card) (e : String)
    (u1 : CardUpdates) (nt : NotifyOutcome) (i : Nat) (c : Card)
    (hfind : findCardById store card.id = some card)
    (hw : card.status = "waiting_for_email")
    (hu1 : u1.status = none)
    (hc : store[i]? = some c) :
    ∀ s1, (s1 = updateCard store card.id u1 ∨ s1 = store) →
    ∃ c' : Card, ((match nt with
        | NotifyOutcome.success =>
            (SetEmailResult.success,
             updateCard (updateCard s1 card.id { email := some (some e) })
               card.id { status := some "email_sent" })
        | NotifyOutcome.failure =>
            (SetEmailResult.sendFailed,
             updateCard s1 card.id { email := some (some e) })
        | NotifyOutcome.thrown =>
            (SetEmailResult.serverError,
             updateCard s1 card.id { email := some (some e) })).2)[i]? =
      some c' ∧ c'.id = c.id ∧ statusRank c.status ≤ statusRank c'.status := by
  intro s1 hs1
  have base : ∃ c1 cf, s1[i]? = some c1 ∧ c1.id = c.id ∧
      statusRank c.status ≤ statusRank c1.status ∧
      findCardById s1 card.id = some cf ∧ cf.status = "waiting_for_email" := by
    rcases hs1 with rfl | rfl
    · obtain ⟨c1, h1, hid1, hr1⟩ := rankMono_updateCard store card.id u1 i c hc
        (fun c0 _ => by rw [applyUpdates_status_none hu1])
      refine ⟨c1, applyUpdates u1 card, h1, hid1, hr1, ?_, ?_⟩
      · rw [findCardById_updateCard, hfind, Option.map_some']
      · rw [applyUpdates_status_none hu1, hw]
    · exact ⟨c, card, hc, rfl, le_refl _, hfind, hw⟩
  obtain ⟨c1, cf, h1, hid1, hr1, hf1, hcfw⟩ := base
  obtain ⟨c2, h2, hid2, hr2⟩ := rankMono_updateCard s1 card.id
    { email := some (some e) } i c1 h1
    (fun c0 _ => by rw [applyUpdates_status_none rfl])
  have hf2 : findCardById (updateCard s1 card.id { email := some (some e) })
      card.id = some (applyUpdates { email := some (some e) } cf) := by
    rw [findCardById_updateCard, hf1, Option.map_some']
  cases nt with
  | success =>
    obtain ⟨c3, h3, hid3, hr3⟩ := rankMono_updateCard _ card.id
      { status := some "email_sent" } i c2 h2
      (fun c0 hf0 => by
        rw [hf2] at hf0
        cases hf0
        have hst : (applyUpdates { email := some (some e) } cf).status =
            "waiting_for_email" := by
          rw [applyUpdates_status_none rfl, hcfw]
        have hst2 : (applyUpdates { status := some "email_sent" }
            (applyUpdates { email := some (some e) } cf)).status =
            "email_sent" := rfl
        rw [hst, hst2]
        decide)
    exact ⟨c3, h3, by rw [hid3, hid2, hid1],
      le_trans hr1 (le_trans hr2 hr3)⟩
  | failure => exact ⟨c2, h2, by rw [hid2, hid1], le_trans hr1 hr2⟩
  | thrown => exact ⟨c2, h2, by rw [hid2, hid1], le_trans hr1 hr2⟩

lemma applyOp_mono (op : Op) (store : List Card) (hwf : wfOp op store = true)
    (i : Nat) (c : Card) (hc : store[i]? = some c) :
    ∃ c', (applyOp op store)[i]? = some c' ∧ c'.id = c.id ∧
      statusRank c.status ≤ statusRank c'.status := by
  cases op with
  | photo f n fc ld bx mr img ocr ge rand nt =>
    have hfresh : ∀ d ∈ store, d.id ≠ f := wfOp_fresh hwf
    cases img with
    | false => exact ⟨c, hc, rfl, le_refl _⟩
    | true =>
      simp only [applyOp, photoIntake, createCard, Bool.not_true,
        Bool.false_eq_true, if_false]
      by_cases hcnd :
          (jsTruthy (selectRedId mr ocr) || jsTruthy (ocrFullName ocr)) = true
      · rw [if_pos hcnd]
        exact intake_chain_mono store f _ _ _ _ nt i c rfl rfl rfl hfresh hc _
          (Or.inl rfl)
      · rw [if_neg hcnd]
        exact intake_chain_mono store f _
          { redId := some (jsOrNone (selectRedId mr ocr)),
            fullName := some (jsOrNone (ocrFullName ocr)) } _ _ nt i c rfl rfl
          rfl hfresh hc _ (Or.inr rfl)
  | box f n r b ge rand nt =>
    have hfresh : ∀ d ∈ store, d.id ≠ f := wfOp_fresh hwf
    simp only [applyOp]
    split
    · next pr heq =>
      simp only [boxIntake] at heq
      split at heq
      · cases heq
      · split at heq
        · cases heq
        · next r' =>
          simp only [createCard, Option.getD_some] at heq
          cases heq
          exact intake_chain_mono store f _
            { redId := none, fullName := none } _ none nt i c rfl rfl rfl
            hfresh hc _ (Or.inr rfl)
    · exact ⟨c, hc, rfl, le_refl _⟩
  | setEmail cid em rand nt =>
    simp only [applyOp, setEmailRoute]
    split
    · exact ⟨c, hc, rfl, le_refl _⟩
    · split
      · exact ⟨c, hc, rfl, le_refl _⟩
      · split
        · exact ⟨c, hc, rfl, le_refl _⟩
        · next card hfind =>
          split
          · exact ⟨c, hc, rfl, le_refl _⟩
          · next hst =>
            have hw : card.status = "waiting_for_email" := by
              by_contra hx
              exact hst hx
            have hfind2 : findCardById store card.id = some card := by
              rw [findCardById_id hfind]
              exact hfind
            by_cases hbc :
                (jsTruthy card.boxId && !(jsTruthy card.pickupCode)) = true
            · exact setEmail_chain_mono store card _
                { pickupCode := some (some (generatePickupCode rand 4)) } nt
                i c hfind2 hw rfl hc _ (Or.inl (if_pos hbc))
            · exact setEmail_chain_mono store card _
                { pickupCode := some (some (generatePickupCode rand 4)) } nt
                i c hfind2 hw rfl hc _ (Or.inr (if_neg hbc))
  | pickup pc bx now =>
    simp only [applyOp, pickupRequest]
    split
    · split
      · exact ⟨c, hc, rfl, le_refl _⟩
      · split
        · exact ⟨c, hc, rfl, le_refl _⟩
        · split
          · exact ⟨c, hc, rfl, le_refl _⟩
          · refine rankMono_updateCard store _ _ i c hc (fun c0 _ => ?_)
            have h2 : (applyUpdates
                { status := some "picked_up", pickedUpAt := some now }
                  c0).status = "picked_up" := rfl
            rw [h2]
            have := statusRank_le_two c0.status
            simpa [statusRank] using this
    · exact ⟨c, hc, rfl, le_refl _⟩
lemma applyOps_mono (ops : List Op) (store : List Card)
    (hwf : wfSeq ops store = true) (i : Nat) (c : Card)
    (hc : store[i]? = some c) :
    ∃ c', (applyOps ops store)[i]? = some c' ∧ c'.id = c.id ∧
      statusRank c.status ≤ statusRank c'.status := by
  induction ops generalizing store c with
  | nil => exact ⟨c, hc, rfl, le_refl _⟩
  | cons op rest ih =>
    rw [wfSeq, Bool.and_eq_true] at hwf
    obtain ⟨c1, h1, hid1, hr1⟩ := applyOp_mono op store hwf.1 i c hc
    obtain ⟨c2, h2, hid2, hr2⟩ := ih (applyOp op store) hwf.2 c1 h1
    exact ⟨c2, by rw [applyOps]; exact h2, by rw [hid2, hid1],
      le_trans hr1 hr2⟩

/-- Claim C4.  Card statuses evolve monotonically along
`waiting_for_email < email_sent < picked_up`: no wellformed sequence of API
operations (photo intake, box intake, manual email assignment, pickup
request) ever lowers the status rank of any card already in the store, and
every card keeps its identity. -/
theorem status_transitions_monotone (ops : List Op) (store : List Card)
    (hwf : wfSeq ops store = true) (i : Nat) (c : Card)
    (hc : store[i]? = some c) :
    ∃ c', (applyOps ops store)[i]? = some c' ∧ c'.id = c.id ∧
      statusRank c.status ≤ statusRank c'.status :=
  applyOps_mono ops store hwf i c hc

/-- Witness for C4: a manual email assignment followed by a pickup on a
concrete one-card store. -/
theorem status_transitions_monotone_witness :
    ∃ c',
      (applyOps
          [Op.setEmail "card-m" (some "a@b.c") (fun _ => 0)
             NotifyOutcome.success,
           Op.pickup (some "1111") (some "BOX_1") 9]
          [{ id := "card-m", redId := none, fullName := none, email := none,
             source := some "web", finderContact := none,
             locationDescription := none, boxId := some "BOX_1",
             pickupCode := some "1111", status := "waiting_for_email",
             createdAt := 0, pickedUpAt := none }])[0]? = some c' ∧
      c'.id = "card-m" ∧
      statusRank "waiting_for_email" ≤ statusRank c'.status :=
  status_transitions_monotone
    [Op.setEmail "card-m" (some "a@b.c") (fun _ => 0) NotifyOutcome.success,
     Op.pickup (some "1111") (some "BOX_1") 9]
    [{ id := "card-m", redId := none, fullName := none, email := none,
       source := some "web", finderContact := none,
       locationDescription := none, boxId := some "BOX_1",
       pickupCode := some "1111", status := "waiting_for_email",
       createdAt := 0, pickedUpAt := none }]
    (by decide) 0
    { id := "card-m", redId := none, fullName := none, email := none,
      source := some "web", finderContact := none,
      locationDescription := none, boxId := some "BOX_1",
      pickupCode := some "1111", status := "waiting_for_email",
      createdAt := 0, pickedUpAt := none }
    (by decide)

/-- Claim C2.  Both intake paths, when given a box id, attach a non-null
pickup code to the card before the call returns, and that code is a string
of exactly 4 characters over the alphabet {1,2,3,4}; in the scenario with a
box but no manual identifier and no image-derived identifier, the created
card stays in `waiting_for_email` and the response reports
`emailSent = false`. -/
theorem intake_with_box_generates_pickup_code :
    (∀ (store : List Card) (f : String) (n : Nat) (fc ld mr : Option String)
       (b : String) (ocr : Option ExtractedInfo) (ge : String → Option String)
       (rand : Nat → Nat) (nt : NotifyOutcome),
       b ≠ "" → (∀ d ∈ store, d.id ≠ f) →
       ∃ resp s',
         photoIntake store f n fc ld (some b) mr true ocr ge rand nt =
           some (resp, s') ∧
         resp.pickupCode = some (generatePickupCode rand 4) ∧
         (generatePickupCode rand 4).length = 4 ∧
         (∀ ch ∈ (generatePickupCode rand 4).toList, ch ∈ allowedDigits) ∧
         ∃ c, findCardById s' f = some c ∧
           c.pickupCode = some (generatePickupCode rand 4)) ∧
    (∀ (store : List Card) (f : String) (n : Nat) (r b : String)
       (ge : String → Option String) (rand : Nat → Nat) (nt : NotifyOutcome),
       r ≠ "" → b ≠ "" → (∀ d ∈ store, d.id ≠ f) →
       ∃ resp s',
         boxIntake store f n (some r) (some b) ge rand nt = some (resp, s') ∧
         resp.pickupCode = generatePickupCode rand 4 ∧
         (generatePickupCode rand 4).length = 4 ∧
         (∀ ch ∈ (generatePickupCode rand 4).toList, ch ∈ allowedDigits) ∧
         ∃ c, findCardById s' f = some c ∧
           c.pickupCode = some (generatePickupCode rand 4)) ∧
    (∀ (store : List Card) (f : String) (n : Nat) (fc ld : Option String)
       (b : String) (ge : String → Option String) (rand : Nat → Nat)
       (nt : NotifyOutcome),
       b ≠ "" → (∀ d ∈ store, d.id ≠ f) →
       ∃ resp s',
         photoIntake store f n fc ld (some b) none true none ge rand nt =
           some (resp, s') ∧
         resp.emailSent = false ∧
         ∃ c, findCardById s' f = some c ∧
           c.status = "waiting_for_email") := by
  refine ⟨?_, ?_, ?_⟩
  · intro store f n fc ld mr b ocr ge rand nt hb hfresh
    obtain ⟨s', msg, h1, h2⟩ :=
      photoIntake_spec store f n fc ld (some b) mr ocr ge rand nt hfresh
    refine ⟨_, _, h1, ?_, generatePickupCode_length rand,
      generatePickupCode_mem rand, _, h2, ?_⟩
    · simp [jsTruthy_some hb]
    · simp [jsTruthy_some hb]
  · intro store f n r b ge rand nt hr hb hfresh
    obtain ⟨s', h1, h2⟩ := boxIntake_spec store f n r b ge rand nt hr hb hfresh
    exact ⟨_, _, h1, rfl, generatePickupCode_length rand,
      generatePickupCode_mem rand, _, h2, rfl⟩
  · intro store f n fc ld b ge rand nt hb hfresh
    obtain ⟨s', msg, h1, h2⟩ :=
      photoIntake_spec store f n fc ld (some b) none none ge rand nt hfresh
    have hro : resolveOwner ge (selectRedId none none) (ocrFullName none) =
        none := rfl
    refine ⟨_, _, h1, ?_, _, h2, ?_⟩
    · simp [hro]
    · simp [hro]

/-- Witness for C2 at concrete inputs for all three parts. -/
theorem intake_with_box_generates_pickup_code_witness :
    (∃ resp s',
      photoIntake [] "w2-a" 0 none none (some "BOX_1") none true none
          (fun _ => none) (fun _ => 0) .success = some (resp, s') ∧
      resp.pickupCode = some (generatePickupCode (fun _ => 0) 4) ∧
      (generatePickupCode (fun _ => 0) 4).length = 4 ∧
      (∀ ch ∈ (generatePickupCode (fun _ => 0) 4).toList,
        ch ∈ allowedDigits) ∧
      ∃ c, findCardById s' "w2-a" = some c ∧
        c.pickupCode = some (generatePickupCode (fun _ => 0) 4)) ∧
    (∃ resp s',
      boxIntake [] "w2-b" 0 (some "132264610") (some "BOX_1")
          (fun _ => none) (fun _ => 1) .success = some (resp, s') ∧
      resp.pickupCode = generatePickupCode (fun _ => 1) 4 ∧
      (generatePickupCode (fun _ => 1) 4).length = 4 ∧
      (∀ ch ∈ (generatePickupCode (fun _ => 1) 4).toList,
        ch ∈ allowedDigits) ∧
      ∃ c, findCardById s' "w2-b" = some c ∧
        c.pickupCode = some (generatePickupCode (fun _ => 1) 4)) ∧
    (∃ resp s',
      photoIntake [] "w2-c" 0 none none (some "BOX_1") none true none
          (fun _ => none) (fun _ => 2) .success = some (resp, s') ∧
      resp.emailSent = false ∧
      ∃ c, findCardById s' "w2-c" = some c ∧
        c.status = "waiting_for_email") :=
  ⟨intake_with_box_generates_pickup_code.1 [] "w2-a" 0 none none none "BOX_1"
      none (fun _ => none) (fun _ => 0) .success (by decide) (by decide),
   intake_with_box_generates_pickup_code.2.1 [] "w2-b" 0 "132264610" "BOX_1"
      (fun _ => none) (fun _ => 1) .success (by decide) (by decide)
      (by decide),
   intake_with_box_generates_pickup_code.2.2 [] "w2-c" 0 none none "BOX_1"
      (fun _ => none) (fun _ => 2) .success (by decide) (by decide)⟩

/-- Claim C6.  In the photo-intake path, when the selected identifier
resolves to a known (non-empty) email but the notification attempt returns
failure, the resolved email is still persisted on the card, the card stays
in `waiting_for_email`, and the call still succeeds with a response
reporting `emailSent = false` (and the looked-up address). -/
theorem photo_intake_email_failure_persists_email (store : List Card)
    (f : String) (n : Nat) (fc ld bx mr : Option String)
    (ocr : Option ExtractedInfo) (ge : String → Option String)
    (rand : Nat → Nat) (rid em : String)
    (hfresh : ∀ d ∈ store, d.id ≠ f)
    (hrid : selectRedId mr ocr = some rid)
    (hem : ge (stripWs rid) = some em) (hemne : em ≠ "") :
    ∃ resp s',
      photoIntake store f n fc ld bx mr true ocr ge rand .failure =
        some (resp, s') ∧
      resp.emailSent = false ∧ resp.emailAddress = some em ∧
      ∃ c, findCardById s' f = some c ∧ c.email = some em ∧
        c.status = "waiting_for_email" := by
  obtain ⟨s', msg, h1, h2⟩ :=
    photoIntake_spec store f n fc ld bx mr ocr ge rand .failure hfresh
  have hro : resolveOwner ge (selectRedId mr ocr) (ocrFullName ocr) =
      some { email := em, fullName := ocrFullName ocr, redId := stripWs rid } := by
    rw [hrid]
    simp only [resolveOwner, if_neg (selectRedId_eq_some hrid), hem,
      if_neg hemne]
  refine ⟨_, _, h1, ?_, ?_, _, h2, ?_, ?_⟩
  · simp [hro]
  · simp [hro]
  · simp [hro]
  · simp [hro]

/-- Witness for C6: the RedID from the hardcoded table, notifier failing. -/
theorem photo_intake_email_failure_persists_email_witness :
    ∃ resp s',
      photoIntake [] "w6" 3 none none (some "BOX_1") (some "132264610") true
          none getEmailByRedId (fun _ => 0) .failure = some (resp, s') ∧
      resp.emailSent = false ∧
      resp.emailAddress = some "ajasti7720@sdsu.edu" ∧
      ∃ c, findCardById s' "w6" = some c ∧
        c.email = some "ajasti7720@sdsu.edu" ∧
        c.status = "waiting_for_email" :=
  photo_intake_email_failure_persists_email [] "w6" 3 none none
    (some "BOX_1") (some "132264610") none getEmailByRedId (fun _ => 0)
    "132264610" "ajasti7720@sdsu.edu" (by decide) (by decide) (by decide)
    (by decide)

/-- Claim C8.  A supplied (non-blank) manual identifier always wins over
any OCR-extracted identifier, and an outright OCR failure does not abort
the photo intake: the card is still created and carries the trimmed manual
identifier as its resolved identifier. -/
theorem manual_identifier_precedence_over_ocr (m : String)
    (hne : jsTrim m ≠ "") :
    (∀ ocr, selectRedId (some m) ocr = some (jsTrim m)) ∧
    (∀ (store : List Card) (f : String) (n : Nat) (fc ld bx : Option String)
       (ge : String → Option String) (rand : Nat → Nat) (nt : NotifyOutcome),
       (∀ d ∈ store, d.id ≠ f) →
       ∃ resp s',
         photoIntake store f n fc ld bx (some m) true none ge rand nt =
           some (resp, s') ∧
         resp.redId = some (jsTrim m) ∧
         ∃ c, findCardById s' f = some c ∧ c.redId = some (jsTrim m)) := by
  refine ⟨selectRedId_manual hne, ?_⟩
  intro store f n fc ld bx ge rand nt hfresh
  obtain ⟨s', msg, h1, h2⟩ :=
    photoIntake_spec store f n fc ld bx (some m) none ge rand nt hfresh
  refine ⟨_, _, h1, ?_, _, h2, ?_⟩
  · simp [selectRedId_manual hne]
  · simp [selectRedId_manual hne]

/-- Witness for C8: a padded manual RedID beats a conflicting OCR RedID,
and intake succeeds with OCR failed outright. -/
theorem manual_identifier_precedence_over_ocr_witness :
    selectRedId (some " 132264610 ")
        (some { redId := some "999999999", fullName := some "X Y" }) =
      some (jsTrim " 132264610 ") ∧
    ∃ resp s',
      photoIntake [] "w8" 1 none none none (some " 132264610 ") true none
          (fun _ => none) (fun _ => 3) .success = some (resp, s') ∧
      resp.redId = some (jsTrim " 132264610 ") ∧
      ∃ c, findCardById s' "w8" = some c ∧
        c.redId = some (jsTrim " 132264610 ") :=
  ⟨(manual_identifier_precedence_over_ocr " 132264610 " (by decide)).1
      (some { redId := some "999999999", fullName := some "X Y" }),
   (manual_identifier_precedence_over_ocr " 132264610 " (by decide)).2
      [] "w8" 1 none none none (fun _ => none) (fun _ => 3) .success
      (by decide)⟩
